import Mathlib

/-!
Shallow embedding of the `cv-camstream` crate (sources under `src/`) used to
verify the natural-language specification against the code.

Conventions of the embedding:
* `f64` / `f32` values are modelled as rational numbers (`ℚ`); `usize` / `u32` /
  `u64` as `ℕ`.
* Fallible Rust functions returning `Result<T>` become `Except Error T`;
  a Rust `panic` (a failed `unwrap` / `expect`) is modelled by `Option`,
  with `none` standing for the panic.
* External collaborators (the `cv_pinhole` crate's `calibrate`/`uncalibrate`,
  the V4L2 camera driver, the image decoder) are universally quantified
  parameters, so theorems hold for every behaviour of the collaborator.
* The worker threads and mpsc channels of `camstream.rs` are embedded as
  explicit state passing: a channel is a FIFO list, a worker is a function
  from the list of commands it receives (plus an oracle giving the outcome of
  each physical capture) to the list of results it sends.
-/

namespace CvCamstream

/-- Modelled from the spec: the crate's `image` module (`GrayFloatImage`) is not
among the sources under `src/`; §3 of the spec describes it as a width, a
height and a row-major buffer of single-channel floating-point samples.  We
model the buffer as a total function from coordinates to sample values. -/
structure GrayFloatImage where
  width : ℕ
  height : ℕ
  data : ℕ → ℕ → ℚ

/-- Modelled from the spec: reading the sample at `(x, y)` (the `img.get(x, y)`
calls of `linterp_pixels`). -/
def GrayFloatImage.get (img : GrayFloatImage) (x y : ℕ) : ℚ :=
  img.data x y

/-- Modelled from the spec: writing one sample (the `get_pixel_mut` write of
`rectify`); dimensions are unchanged. -/
def GrayFloatImage.set (img : GrayFloatImage) (x y : ℕ) (v : ℚ) : GrayFloatImage :=
  { img with data := fun a b => if a = x ∧ b = y then v else img.data a b }

/-- `cv_pinhole::CameraIntrinsics` (the fields built by
`RectifParams::to_pinhole_intrisics`, src/rectification.rs lines 70-81). -/
structure CameraIntrinsics where
  focals : ℚ × ℚ
  principal_point : ℚ × ℚ
  skew : ℚ

/-- `cv_pinhole::CameraIntrinsicsK1Distortion` (the fields built by
`RectifParams::to_pinhole_intrisics_k1`, src/rectification.rs lines 86-100). -/
structure CameraIntrinsicsK1Distortion where
  simple_intrinsics : CameraIntrinsics
  k1 : ℚ

/-- `RectifParams` (src/rectification.rs lines 27-39). -/
structure RectifParams where
  focals : ℚ × ℚ
  principal_point : ℚ × ℚ
  skew : ℚ
  k1 : Option ℚ

/-- `StereoRectifParams` (src/rectification.rs lines 43-49). -/
structure StereoRectifParams where
  left : RectifParams
  right : RectifParams

/-- The crate's `Error` enum (src/error.rs).  Payloads of external error types
(`std::io::Error`, `image::ImageError`, `rscam::Error`, `serde_any::Error`,
`std::sync::mpsc::RecvError`) are modelled as opaque naturals; `String`
payloads as `String`; the `ImageFormatError` payload is the UTF-8 byte list of
the offending FourCC code (the bytes the `String` is built from). -/
inductive Error where
  | FileNotFound (path : String)
  | DeserialisationError (e : ℕ)
  | RectifToCamIntrisicsError (k1 : Option ℚ)
  | RectifToCamIntrisicsK1DistortionError
  | CameraCaptureError (e : ℕ)
  | ImageConversionError (e : ℕ)
  | CamStreamBuildError (msg : String)
  | CamStartError (e : ℕ)
  | ImageFormatError (fourcc : List ℕ)
  | ChannelReceiveError
  | ChannelSendError
  | ThreadJoinError

/-- `RectifParams::to_pinhole_intrisics` (src/rectification.rs lines 70-81):
succeeds exactly when `self.k1.is_none()`, otherwise fails with
`RectifToCamIntrisicsError(self.k1)`. -/
def RectifParams.to_pinhole_intrisics (p : RectifParams) : Except Error CameraIntrinsics :=
  if p.k1.isNone then
    .ok { focals := p.focals, principal_point := p.principal_point, skew := p.skew }
  else
    .error (.RectifToCamIntrisicsError p.k1)

/-- `RectifParams::to_pinhole_intrisics_k1` (src/rectification.rs lines 86-100):
succeeds exactly when `self.k1.is_some()` (the `self.k1.unwrap()` inside the
branch is the `Option.get` on the guard), otherwise fails with
`RectifToCamIntrisicsK1DistortionError`. -/
def RectifParams.to_pinhole_intrisics_k1 (p : RectifParams) :
    Except Error CameraIntrinsicsK1Distortion :=
  if h : p.k1.isSome then
    .ok { simple_intrinsics :=
            { focals := p.focals, principal_point := p.principal_point, skew := p.skew },
          k1 := p.k1.get h }
  else
    .error .RectifToCamIntrisicsK1DistortionError

/-- A pinhole camera model of the external `cv_pinhole` crate: the pair of
functions `calibrate` (pixel point to normalized keypoint) and `uncalibrate`
(normalized keypoint to pixel point).  Points are coordinate pairs. -/
structure PinholeModel where
  calibrate : ℚ × ℚ → ℚ × ℚ
  uncalibrate : ℚ × ℚ → ℚ × ℚ

/-- `image_xy_to_normkp` (src/rectification.rs lines 187-209), transcribed from
the source: normalized width/height `nw`/`nh`, per-pixel steps `nhx`/`nhy`,
and the point `tl - step * (coord + 0.5)` componentwise. -/
def image_xy_to_normkp (x y : ℕ) (width height : ℕ) (tl_normkp br_normkp : ℚ × ℚ) : ℚ × ℚ :=
  let nw := tl_normkp.1 - br_normkp.1
  let nh := tl_normkp.2 - br_normkp.2
  let nhx := nw / (width : ℚ)
  let nhy := nh / (height : ℚ)
  (tl_normkp.1 - nhx * ((x : ℚ) + 0.5), tl_normkp.2 - nhy * ((y : ℚ) + 0.5))

/-- `linterp_pixels` (src/rectification.rs lines 212-241).  The keypoint is a
coordinate pair; `fract` on the values admitted past the first guard
(both coordinates non-negative) coincides with `Int.fract`, and the
`floor() as usize` cast is `Int.toNat ∘ Int.floor`. -/
def linterp_pixels (kp : ℚ × ℚ) (img : GrayFloatImage) : ℚ :=
  if kp.1 < 0 ∨ kp.2 < 0 then 0
  else
    let x := (⌊kp.1⌋).toNat
    let y := (⌊kp.2⌋).toNat
    if img.width - 1 ≤ x ∨ img.height - 1 ≤ y then 0
    else
      let fract_x := Int.fract kp.1
      let fract_y := Int.fract kp.2
      0.5 * (img.get x y * (2 - fract_x - fract_y)
        + img.get (x + 1) y * fract_x
        + img.get x (y + 1) * fract_y)

/-- The per-branch body of `RectifParams::rectify` (src/rectification.rs lines
121-143 and 150-172): calibrate the two corners, then fill an image of size
`w × h` where the pixel at `(x, y)` is `linterp_pixels` of the uncalibrated
query point.  Pixels outside the loop ranges keep the `GrayFloatImage::new`
default of `0`. -/
def rectifyWith (m : PinholeModel) (w h : ℕ) (grey_img : GrayFloatImage) : GrayFloatImage :=
  let tl_normkp := m.calibrate (0, 0)
  let br_normkp := m.calibrate ((w : ℚ), (h : ℚ))
  { width := w
    height := h
    data := fun x y =>
      if x < w ∧ y < h then
        linterp_pixels
          (m.uncalibrate (image_xy_to_normkp x y w h tl_normkp br_normkp)) grey_img
      else 0 }

/-- `RectifParams::rectify` (src/rectification.rs lines 103-175).  The source
image is taken already as a `GrayFloatImage` (the `from_dynamic` decode is the
external collaborator and preserves dimensions).  `mkS` and `mkK1` are the
external `cv_pinhole` implementations of the two intrinsics variants.  The two
internal `unwrap` calls are modelled by `Option`: `none` is the panic on a
failed conversion. -/
def RectifParams.rectify (p : RectifParams) (mkS : CameraIntrinsics → PinholeModel)
    (mkK1 : CameraIntrinsicsK1Distortion → PinholeModel) (img : GrayFloatImage) :
    Option GrayFloatImage :=
  let grey_img := img
  match p.k1 with
  | some _ =>
    match p.to_pinhole_intrisics_k1 with
    | .error _ => none
    | .ok intrinsics => some (rectifyWith (mkK1 intrinsics) img.width img.height grey_img)
  | none =>
    match p.to_pinhole_intrisics with
    | .error _ => none
    | .ok intrinsics => some (rectifyWith (mkS intrinsics) img.width img.height grey_img)

/-- `WorkerCmd` (src/camstream.rs lines 75-81). -/
inductive WorkerCmd where
  | capture
  | stop
deriving DecidableEq

/-- The outcome of one physical capture-and-decode interaction of a worker with
its camera: `cam.capture()` fails, or the decode
(`rscam_frame_to_dynamic_image`) fails, or a frame is produced with its
driver timestamp.  Both the camera and the decoder are external collaborators,
so the outcomes are supplied by an oracle. -/
inductive CapOutcome where
  | camErr (e : ℕ)
  | decodeErr (e : ℕ)
  | ok (img : GrayFloatImage) (timestamp : ℕ)

/-- The result message a worker sends for one `Capture` command
(src/camstream.rs lines 242-273): a capture failure becomes
`CameraCaptureError`, a decode failure is forwarded, and on success the image
is rectified when `rectif_params` is set and sent with the timestamp.
`RectifParams::rectify` never panics (its internal conversions always succeed
on the branch taken), so the `Option.getD` default is unreachable. -/
def captureResult (rectif_params : Option RectifParams)
    (mkS : CameraIntrinsics → PinholeModel) (mkK1 : CameraIntrinsicsK1Distortion → PinholeModel)
    (o : CapOutcome) : Except Error (GrayFloatImage × ℕ) :=
  match o with
  | .camErr e => .error (.CameraCaptureError e)
  | .decodeErr e => .error (.ImageConversionError e)
  | .ok img timestamp =>
    let img' := match rectif_params with
      | some r => (r.rectify mkS mkK1 img).getD img
      | none => img
    .ok (img', timestamp)

/-- The loop of `img_cap_thread` (src/camstream.rs lines 232-281), embedded as
a function from the FIFO list of commands the worker receives to the FIFO list
of results it sends.  The empty list is the closure of the command channel
(the `while let Ok(cmd)` recv failing); `Stop` breaks the loop; each `Capture`
emits exactly one result built from the oracle outcome of the `k`-th physical
capture and continues. -/
def img_cap_thread (rectif_params : Option RectifParams)
    (mkS : CameraIntrinsics → PinholeModel) (mkK1 : CameraIntrinsicsK1Distortion → PinholeModel) :
    List WorkerCmd → (ℕ → CapOutcome) → ℕ → List (Except Error (GrayFloatImage × ℕ))
  | [], _, _ => []
  | .stop :: _, _, _ => []
  | .capture :: rest, caps, k =>
    captureResult rectif_params mkS mkK1 (caps k) :: img_cap_thread rectif_params mkS mkK1 rest caps (k + 1)

/-- `StereoFrame` (src/camstream.rs lines 56-68). -/
structure StereoFrame where
  left : GrayFloatImage
  right : GrayFloatImage
  left_timestamp : ℕ
  right_timestamp : ℕ

/-- The two result channels owned by a `StereoCamStream` (src/camstream.rs
lines 49, 52), as FIFO queues of pending messages. -/
structure StereoChans where
  left_rx : List (Except Error (GrayFloatImage × ℕ))
  right_rx : List (Except Error (GrayFloatImage × ℕ))

/-- `StereoCamStream::capture` (src/camstream.rs lines 177-200).  Sending
`Capture` to each live worker makes it eventually append exactly one result to
its result channel (per-worker strict FIFO pairing, see `img_cap_thread`);
`lres` and `rres` are the results the two workers produce for this command.
`recv` takes from the front of the queue, so a stale message left by an
earlier call is received before the fresh one.  The call receives from the
left channel; if that result is an error it returns it at once, leaving the
right channel untouched; otherwise it receives from the right channel and
combines the pair. -/
def stereo_capture (st : StereoChans) (lres rres : Except Error (GrayFloatImage × ℕ)) :
    Except Error StereoFrame × StereoChans :=
  let left_rx := st.left_rx ++ [lres]
  let right_rx := st.right_rx ++ [rres]
  match left_rx with
  | [] => (.error .ChannelReceiveError, ⟨[], right_rx⟩)
  | .error e :: lrest => (.error e, ⟨lrest, right_rx⟩)
  | .ok l :: lrest =>
    match right_rx with
    | [] => (.error .ChannelReceiveError, ⟨lrest, []⟩)
    | .error e :: rrest => (.error e, ⟨lrest, rrest⟩)
    | .ok r :: rrest =>
      (.ok { left := l.1, right := r.1, left_timestamp := l.2, right_timestamp := r.2 },
        ⟨lrest, rrest⟩)

/-- `image::ImageFormat`, restricted to the variants the crate can produce:
`format_from_fourcc` only ever yields `Jpeg`. -/
inductive ImageFormat where
  | Jpeg
deriving DecidableEq

/-- `rscam::Config` (the fields the builders set): interval, resolution,
FourCC format bytes, field order, buffer count. -/
structure Config where
  interval : ℕ × ℕ
  resolution : ℕ × ℕ
  format : List ℕ
  field_order : ℕ
  nbuffers : ℕ

/-- `rscam::Config::default()`: interval `(1, 10)`, resolution `(640, 480)`,
format `b"YUYV"`, `FIELD_NONE` (0), 2 buffers. -/
def Config.default : Config :=
  { interval := (1, 10), resolution := (640, 480),
    format := [0x59, 0x55, 0x59, 0x56], field_order := 0, nbuffers := 2 }

/-- `StereoStreamBuilder` (src/builder.rs lines 65-75); paths are modelled as
strings. -/
structure StereoStreamBuilder where
  left_path : Option String
  right_path : Option String
  rectif_params : Option StereoRectifParams
  img_format : Option ImageFormat
  left_config : Config
  right_config : Config

/-- `CamStreamBuilder::stereo` (src/builder.rs lines 94-103). -/
def CamStreamBuilder.stereo : StereoStreamBuilder :=
  { left_path := none, right_path := none, rectif_params := none, img_format := none,
    left_config := Config.default, right_config := Config.default }

/-- `format_from_fourcc` (src/builder.rs lines 313-318): only `b"MJPG"` maps
to a format (`Jpeg`); every other byte sequence maps to `None`. -/
def format_from_fourcc (format : List ℕ) : Option ImageFormat :=
  if format = [0x4D, 0x4A, 0x50, 0x47] then some .Jpeg else none

/-- Whether a byte is a UTF-8 continuation byte (`0x80..=0xBF`). -/
def utf8Cont (b : ℕ) : Bool :=
  0x80 ≤ b ∧ b ≤ 0xBF

/-- Validity of a byte sequence as UTF-8, as checked by Rust's
`String::from_utf8` (RFC 3629: no overlong encodings, no surrogates, no code
points above U+10FFFF). -/
def utf8Valid : List ℕ → Bool
  | [] => true
  | b :: rest =>
    if b ≤ 0x7F then utf8Valid rest
    else if 0xC2 ≤ b ∧ b ≤ 0xDF then
      match rest with
      | c1 :: r => utf8Cont c1 && utf8Valid r
      | [] => false
    else if b = 0xE0 then
      match rest with
      | c1 :: c2 :: r => (0xA0 ≤ c1 ∧ c1 ≤ 0xBF : Bool) && utf8Cont c2 && utf8Valid r
      | _ => false
    else if (0xE1 ≤ b ∧ b ≤ 0xEC) ∨ b = 0xEE ∨ b = 0xEF then
      match rest with
      | c1 :: c2 :: r => utf8Cont c1 && utf8Cont c2 && utf8Valid r
      | _ => false
    else if b = 0xED then
      match rest with
      | c1 :: c2 :: r => (0x80 ≤ c1 ∧ c1 ≤ 0x9F : Bool) && utf8Cont c2 && utf8Valid r
      | _ => false
    else if b = 0xF0 then
      match rest with
      | c1 :: c2 :: c3 :: r => (0x90 ≤ c1 ∧ c1 ≤ 0xBF : Bool) && utf8Cont c2 && utf8Cont c3 && utf8Valid r
      | _ => false
    else if 0xF1 ≤ b ∧ b ≤ 0xF3 then
      match rest with
      | c1 :: c2 :: c3 :: r => utf8Cont c1 && utf8Cont c2 && utf8Cont c3 && utf8Valid r
      | _ => false
    else if b = 0xF4 then
      match rest with
      | c1 :: c2 :: c3 :: r => (0x80 ≤ c1 ∧ c1 ≤ 0x8F : Bool) && utf8Cont c2 && utf8Cont c3 && utf8Valid r
      | _ => false
    else false

/-- `StereoStreamBuilder::format` (src/builder.rs lines 229-240): store
`format_from_fourcc(format)`; if it is `None`, return the `ImageFormatError`
built from `String::from_utf8(format).unwrap()` — that `unwrap` panics
(modelled by the outer `none`) when the bytes are not valid UTF-8; otherwise
set both camera configs' format and succeed. -/
def StereoStreamBuilder.format (b : StereoStreamBuilder) (format : List ℕ) :
    Option (Except Error StereoStreamBuilder) :=
  let img_format := format_from_fourcc format
  match img_format with
  | none =>
    if utf8Valid format then some (.error (.ImageFormatError format)) else none
  | some _ =>
    some (.ok { b with
      img_format := img_format,
      left_config := { b.left_config with format := format },
      right_config := { b.right_config with format := format } })

/-- The arguments a successful `StereoStreamBuilder::build` passes to
`StereoCamStream::new` (src/builder.rs lines 290-295), camera handles left to
the external collaborator. -/
structure StereoCamStreamArgs where
  format : ImageFormat
  rectif_params : Option StereoRectifParams

/-- `StereoStreamBuilder::build` (src/builder.rs lines 265-296).  The external
V4L2 collaborator's behaviour is given by the outcomes of the two
`Camera::new` opens and the two `Camera::start` calls.  Missing paths yield
`CamStreamBuildError("Missing camera path")`; open/start failures yield the
corresponding errors; after all four succeed, `self.img_format.unwrap()` is
evaluated — `none` models the panic when no format was set. -/
def StereoStreamBuilder.build (b : StereoStreamBuilder)
    (openLeft openRight : Except String Unit) (startLeft startRight : Except ℕ Unit) :
    Option (Except Error StereoCamStreamArgs) :=
  if b.left_path.isNone ∨ b.right_path.isNone then
    some (.error (.CamStreamBuildError "Missing camera path"))
  else
    match openLeft with
    | .error e => some (.error (.CamStreamBuildError e))
    | .ok _ =>
      match openRight with
      | .error e => some (.error (.CamStreamBuildError e))
      | .ok _ =>
        match startLeft with
        | .error e => some (.error (.CamStartError e))
        | .ok _ =>
          match startRight with
          | .error e => some (.error (.CamStartError e))
          | .ok _ =>
            match b.img_format with
            | none => none
            | some fmt => some (.ok { format := fmt, rectif_params := b.rectif_params })

/-! Concrete instances used by witness theorems. -/

/-- A parameter set without a distortion coefficient. -/
def sampleParams : RectifParams := ⟨(1, 1), (0, 0), 0, none⟩

/-- A parameter set with a distortion coefficient. -/
def sampleParamsK1 : RectifParams := ⟨(1, 1), (0, 0), 0, some (1/2)⟩

/-- An identity pinhole model. -/
def sampleModel : PinholeModel := ⟨fun q => q, fun q => q⟩

/-- A pinhole model whose reprojection always lands at a negative coordinate. -/
def sampleModelNeg : PinholeModel := ⟨fun q => q, fun _ => (-1, -1)⟩

/-- A constructor of pinhole models for the simple variant. -/
def sampleMkS : CameraIntrinsics → PinholeModel := fun _ => sampleModel

/-- A constructor of pinhole models for the k1 variant. -/
def sampleMkK1 : CameraIntrinsicsK1Distortion → PinholeModel := fun _ => sampleModel

/-- A 2-by-2 image of constant brightness. -/
def sampleImg : GrayFloatImage := ⟨2, 2, fun _ _ => 1/2⟩

/-- A 3-by-3 image whose sample at `(a, b)` is `a + b`. -/
def sampleImg3 : GrayFloatImage := ⟨3, 3, fun a b => (a : ℚ) + (b : ℚ)⟩

/-- A capture oracle failing on the first capture and succeeding afterwards. -/
def sampleCaps : ℕ → CapOutcome := fun j => if j = 0 then .camErr 7 else .ok sampleImg 42

/-- A stereo builder with both paths set and no image format. -/
def sampleBuilder : StereoStreamBuilder :=
  { CamStreamBuilder.stereo with
    left_path := some "/dev/video2", right_path := some "/dev/video4" }

end CvCamstream

namespace CvCamstream

/-! ## Helper lemmas -/

/-- Evaluation of `linterp_pixels` when both edge guards pass: the
interpolation formula of src/rectification.rs lines 234-238. -/
theorem linterp_pixels_of_guards (kp : ℚ × ℚ) (img : GrayFloatImage)
    (hx0 : 0 ≤ kp.1) (hy0 : 0 ≤ kp.2)
    (hx : (⌊kp.1⌋).toNat < img.width - 1) (hy : (⌊kp.2⌋).toNat < img.height - 1) :
    linterp_pixels kp img =
      0.5 * (img.get (⌊kp.1⌋).toNat (⌊kp.2⌋).toNat * (2 - Int.fract kp.1 - Int.fract kp.2)
        + img.get ((⌊kp.1⌋).toNat + 1) (⌊kp.2⌋).toNat * Int.fract kp.1
        + img.get (⌊kp.1⌋).toNat ((⌊kp.2⌋).toNat + 1) * Int.fract kp.2) := by
  have hg1 : ¬(kp.1 < 0 ∨ kp.2 < 0) := by
    push_neg
    exact ⟨hx0, hy0⟩
  have hg2 : ¬(img.width - 1 ≤ (⌊kp.1⌋).toNat ∨ img.height - 1 ≤ (⌊kp.2⌋).toNat) := by
    push_neg
    exact ⟨hx, hy⟩
  unfold linterp_pixels
  rw [if_neg hg1, if_neg hg2]

/-! ## Claims -/

/-- C3: for every parameter set, `to_pinhole_intrisics` succeeds if and only
if `k1` is absent and otherwise fails with the would-discard-distortion
error carrying `k1`, and `to_pinhole_intrisics_k1` succeeds if and only if
`k1` is present and otherwise fails with the missing-k1 error. -/
theorem claim_C3 (p : RectifParams) :
    (p.to_pinhole_intrisics.isOk = true ↔ p.k1 = none) ∧
    (p.k1 ≠ none →
      p.to_pinhole_intrisics = .error (.RectifToCamIntrisicsError p.k1)) ∧
    (p.to_pinhole_intrisics_k1.isOk = true ↔ p.k1.isSome = true) ∧
    (p.k1 = none →
      p.to_pinhole_intrisics_k1 = .error .RectifToCamIntrisicsK1DistortionError) := by
  cases hk : p.k1 with
  | none =>
    simp [RectifParams.to_pinhole_intrisics, RectifParams.to_pinhole_intrisics_k1, hk,
      Except.isOk, Except.toBool]
  | some v =>
    simp [RectifParams.to_pinhole_intrisics, RectifParams.to_pinhole_intrisics_k1, hk,
      Except.isOk, Except.toBool]

/-- Witness for C3 at a concrete parameter set with `k1` present. -/
theorem claim_C3_witness :
    sampleParamsK1.to_pinhole_intrisics
      = .error (.RectifToCamIntrisicsError (some (1/2))) :=
  (claim_C3 sampleParamsK1).2.1 (by simp [sampleParamsK1])

/-- C9: the internal `unwrap` calls of `RectifParams::rectify` never panic:
`rectify` always returns an image (no panic branch is reached), because in
the branch where `k1` is `Some` the `to_pinhole_intrisics_k1` conversion
succeeds and in the branch where `k1` is `None` the `to_pinhole_intrisics`
conversion succeeds. -/
theorem claim_C9 (p : RectifParams) (mkS : CameraIntrinsics → PinholeModel)
    (mkK1 : CameraIntrinsicsK1Distortion → PinholeModel) (img : GrayFloatImage) :
    (p.rectify mkS mkK1 img).isSome = true ∧
    (∀ v, p.k1 = some v → ∃ i, p.to_pinhole_intrisics_k1 = .ok i) ∧
    (p.k1 = none → ∃ i, p.to_pinhole_intrisics = .ok i) := by
  cases hk : p.k1 with
  | none =>
    refine ⟨?_, ?_, ?_⟩
    · simp [RectifParams.rectify, hk, RectifParams.to_pinhole_intrisics]
    · intro v hv
      exact absurd hv (by simp)
    · intro _
      exact ⟨⟨p.focals, p.principal_point, p.skew⟩,
        by simp [RectifParams.to_pinhole_intrisics, hk]⟩
  | some v =>
    refine ⟨?_, ?_, ?_⟩
    · simp [RectifParams.rectify, hk, RectifParams.to_pinhole_intrisics_k1]
    · intro w hw
      exact ⟨⟨⟨p.focals, p.principal_point, p.skew⟩, v⟩,
        by simp [RectifParams.to_pinhole_intrisics_k1, hk]⟩
    · intro hnone
      exact absurd hnone (by simp)

/-- Witness for C9 at a concrete parameter set with `k1` present. -/
theorem claim_C9_witness :
    (sampleParamsK1.rectify sampleMkS sampleMkK1 sampleImg).isSome = true ∧
    ∃ i, sampleParamsK1.to_pinhole_intrisics_k1 = .ok i :=
  ⟨(claim_C9 sampleParamsK1 sampleMkS sampleMkK1 sampleImg).1,
    (claim_C9 sampleParamsK1 sampleMkS sampleMkK1 sampleImg).2.1 (1/2) rfl⟩

/-- C7: whenever `RectifParams::rectify` returns an image, that image's width
and height are identical to the source image's width and height. -/
theorem claim_C7 (p : RectifParams) (mkS : CameraIntrinsics → PinholeModel)
    (mkK1 : CameraIntrinsicsK1Distortion → PinholeModel) (img out : GrayFloatImage)
    (h : p.rectify mkS mkK1 img = some out) :
    out.width = img.width ∧ out.height = img.height := by
  cases hk : p.k1 with
  | none =>
    rw [RectifParams.rectify] at h
    rw [hk] at h
    simp only [RectifParams.to_pinhole_intrisics, hk, Option.isNone_none, if_true,
      Option.some.injEq] at h
    subst h
    exact ⟨rfl, rfl⟩
  | some v =>
    rw [RectifParams.rectify] at h
    rw [hk] at h
    simp only [RectifParams.to_pinhole_intrisics_k1] at h
    rw [dif_pos (by simp [hk])] at h
    simp only [Option.some.injEq] at h
    subst h
    exact ⟨rfl, rfl⟩

/-- Witness for C7 at a concrete parameter set, pinhole model and image. -/
theorem claim_C7_witness :
    (rectifyWith sampleModel 2 2 sampleImg).width = sampleImg.width ∧
    (rectifyWith sampleModel 2 2 sampleImg).height = sampleImg.height :=
  claim_C7 sampleParams sampleMkS sampleMkK1 sampleImg
    (rectifyWith sampleModel 2 2 sampleImg) rfl

/-- C6: for every destination pixel `(x, y)`, the normalized query point of
the rectification loop equals the linear interpolation between the calibrated
top-left corner `(0, 0)` and the calibrated bottom-right corner
`(width, height)`, with coefficients `(x + 0.5) / width` and
`(y + 0.5) / height`. -/
theorem claim_C6 (m : PinholeModel) (x y width height : ℕ) :
    image_xy_to_normkp x y width height (m.calibrate (0, 0))
        (m.calibrate ((width : ℚ), (height : ℚ))) =
      ((m.calibrate (0, 0)).1
          + ((m.calibrate ((width : ℚ), (height : ℚ))).1 - (m.calibrate (0, 0)).1)
            * (((x : ℚ) + 0.5) / (width : ℚ)),
        (m.calibrate (0, 0)).2
          + ((m.calibrate ((width : ℚ), (height : ℚ))).2 - (m.calibrate (0, 0)).2)
            * (((y : ℚ) + 0.5) / (height : ℚ))) := by
  unfold image_xy_to_normkp
  refine Prod.ext ?_ ?_ <;> simp <;> ring

/-- C2: for every mapped source coordinate passing the edge guard (both
coordinates non-negative and floor strictly inside the last valid
row/column), the interpolated value equals exactly
`0.5 * (p(ix,iy)*(2 - fx - fy) + p(ix+1,iy)*fx + p(ix,iy+1)*fy)` where
`(ix, iy)` is the floor of the coordinate and `(fx, fy)` its fractional
part, and the diagonal neighbour `p(ix+1, iy+1)` contributes nothing: its
value can be changed arbitrarily without changing the output. -/
theorem claim_C2 (kp : ℚ × ℚ) (img : GrayFloatImage)
    (hx0 : 0 ≤ kp.1) (hy0 : 0 ≤ kp.2)
    (hx : (⌊kp.1⌋).toNat < img.width - 1) (hy : (⌊kp.2⌋).toNat < img.height - 1) :
    linterp_pixels kp img =
      0.5 * (img.get (⌊kp.1⌋).toNat (⌊kp.2⌋).toNat * (2 - Int.fract kp.1 - Int.fract kp.2)
        + img.get ((⌊kp.1⌋).toNat + 1) (⌊kp.2⌋).toNat * Int.fract kp.1
        + img.get (⌊kp.1⌋).toNat ((⌊kp.2⌋).toNat + 1) * Int.fract kp.2) ∧
    (∀ v : ℚ, linterp_pixels kp (img.set ((⌊kp.1⌋).toNat + 1) ((⌊kp.2⌋).toNat + 1) v)
      = linterp_pixels kp img) := by
  refine ⟨linterp_pixels_of_guards kp img hx0 hy0 hx hy, ?_⟩
  intro v
  rw [linterp_pixels_of_guards kp (img.set ((⌊kp.1⌋).toNat + 1) ((⌊kp.2⌋).toNat + 1) v)
      hx0 hy0 hx hy,
    linterp_pixels_of_guards kp img hx0 hy0 hx hy]
  simp [GrayFloatImage.get, GrayFloatImage.set]

/-- Witness for C2 at the concrete coordinate `(1/2, 1/2)` on a 3-by-3
image. -/
theorem claim_C2_witness :
    linterp_pixels ((1/2 : ℚ), (1/2 : ℚ)) sampleImg3 = 1/2 := by
  have h00 : ⌊(2⁻¹ : ℚ)⌋ = 0 := by norm_num
  have hfr : Int.fract (2⁻¹ : ℚ) = 2⁻¹ := Int.fract_eq_self.2 (by norm_num)
  have h := claim_C2 ((1/2 : ℚ), (1/2 : ℚ)) sampleImg3
    (by norm_num) (by norm_num) (by simp [sampleImg3, h00]) (by simp [sampleImg3, h00])
  rw [h.1]
  simp [sampleImg3, GrayFloatImage.get, h00, hfr]
  norm_num

/-- C4: every output pixel of the rectification loop whose mapped source
coordinate has a negative component, or whose floor lands on or past the
image's last valid row or column, is exactly `0`, for every source image and
every pinhole model — a hard guard to black, independent of the image's edge
values. -/
theorem claim_C4 (m : PinholeModel) (img : GrayFloatImage) (x y : ℕ)
    (hx : x < img.width) (hy : y < img.height)
    (hguard :
      (m.uncalibrate (image_xy_to_normkp x y img.width img.height (m.calibrate (0, 0))
          (m.calibrate ((img.width : ℚ), (img.height : ℚ))))).1 < 0 ∨
      (m.uncalibrate (image_xy_to_normkp x y img.width img.height (m.calibrate (0, 0))
          (m.calibrate ((img.width : ℚ), (img.height : ℚ))))).2 < 0 ∨
      img.width - 1 ≤
        (⌊(m.uncalibrate (image_xy_to_normkp x y img.width img.height (m.calibrate (0, 0))
          (m.calibrate ((img.width : ℚ), (img.height : ℚ))))).1⌋).toNat ∨
      img.height - 1 ≤
        (⌊(m.uncalibrate (image_xy_to_normkp x y img.width img.height (m.calibrate (0, 0))
          (m.calibrate ((img.width : ℚ), (img.height : ℚ))))).2⌋).toNat) :
    (rectifyWith m img.width img.height img).data x y = 0 := by
  unfold rectifyWith
  simp only [if_pos (And.intro hx hy)]
  unfold linterp_pixels
  rcases hguard with h | h | h | h
  · rw [if_pos (Or.inl h)]
  · rw [if_pos (Or.inr h)]
  · by_cases h1 : (m.uncalibrate (image_xy_to_normkp x y img.width img.height
        (m.calibrate (0, 0)) (m.calibrate ((img.width : ℚ), (img.height : ℚ))))).1 < 0 ∨
      (m.uncalibrate (image_xy_to_normkp x y img.width img.height (m.calibrate (0, 0))
        (m.calibrate ((img.width : ℚ), (img.height : ℚ))))).2 < 0
    · rw [if_pos h1]
    · rw [if_neg h1, if_pos (Or.inl h)]
  · by_cases h1 : (m.uncalibrate (image_xy_to_normkp x y img.width img.height
        (m.calibrate (0, 0)) (m.calibrate ((img.width : ℚ), (img.height : ℚ))))).1 < 0 ∨
      (m.uncalibrate (image_xy_to_normkp x y img.width img.height (m.calibrate (0, 0))
        (m.calibrate ((img.width : ℚ), (img.height : ℚ))))).2 < 0
    · rw [if_pos h1]
    · rw [if_neg h1, if_pos (Or.inr h)]

/-- Witness for C4 at a pinhole model whose reprojection is always negative,
on a concrete 2-by-2 image. -/
theorem claim_C4_witness :
    (rectifyWith sampleModelNeg sampleImg.width sampleImg.height sampleImg).data 0 0 = 0 :=
  claim_C4 sampleModelNeg sampleImg 0 0 (by decide) (by decide)
    (Or.inl (by norm_num [sampleModelNeg]))

/-- C5: a worker sent `n` `Capture` commands emits exactly `n` result
messages, the `i`-th being the result of the `i`-th capture outcome (one
message per command, in send order), no capture or decode failure ends the
loop, and a `Stop` command ends the loop regardless of what follows it. -/
theorem claim_C5 (rectif_params : Option RectifParams)
    (mkS : CameraIntrinsics → PinholeModel) (mkK1 : CameraIntrinsicsK1Distortion → PinholeModel)
    (caps : ℕ → CapOutcome) (k n : ℕ) (extra : List WorkerCmd) :
    (img_cap_thread rectif_params mkS mkK1 (List.replicate n .capture) caps k).length = n ∧
    (∀ i, i < n →
      (img_cap_thread rectif_params mkS mkK1 (List.replicate n .capture) caps k)[i]? =
        some (captureResult rectif_params mkS mkK1 (caps (k + i)))) ∧
    img_cap_thread rectif_params mkS mkK1 (List.replicate n .capture ++ .stop :: extra) caps k =
      img_cap_thread rectif_params mkS mkK1 (List.replicate n .capture) caps k := by
  induction n generalizing k with
  | zero =>
    refine ⟨rfl, ?_, ?_⟩
    · intro i hi
      exact absurd hi (by omega)
    · simp [img_cap_thread]
  | succ n ih =>
    obtain ⟨ih1, ih2, ih3⟩ := ih (k + 1)
    refine ⟨?_, ?_, ?_⟩
    · simp only [List.replicate_succ, img_cap_thread, List.length_cons, ih1]
    · intro i hi
      cases i with
      | zero =>
        simp [List.replicate_succ, img_cap_thread]
      | succ i =>
        have h := ih2 i (by omega)
        have hk : k + 1 + i = k + (i + 1) := by omega
        rw [hk] at h
        simpa [List.replicate_succ, img_cap_thread] using h
    · simp only [List.replicate_succ, List.cons_append, img_cap_thread, List.append_eq, ih3]

/-- Witness for C5: two `Capture` commands against an oracle whose first
capture fails still yield two results, the second being the success. -/
theorem claim_C5_witness :
    (img_cap_thread none sampleMkS sampleMkK1 (List.replicate 2 .capture) sampleCaps 0).length = 2 ∧
    (img_cap_thread none sampleMkS sampleMkK1 (List.replicate 2 .capture) sampleCaps 0)[1]? =
      some (.ok (sampleImg, 42)) := by
  have h := claim_C5 none sampleMkS sampleMkK1 sampleCaps 0 2 []
  refine ⟨h.1, ?_⟩
  rw [h.2.1 1 (by omega)]
  rfl

/-- C1: if the left worker's result received by `StereoCamStream::capture` is
an error, the call returns that error immediately without receiving the right
worker's result: the right result message stays unconsumed in the right
result channel and is delivered as the right half of a later `capture` call's
frame, in place of that call's own right result. -/
theorem claim_C1 (e : Error) (rimg : GrayFloatImage) (rts : ℕ)
    (limg : GrayFloatImage) (lts : ℕ) (rres2 : Except Error (GrayFloatImage × ℕ)) :
    (stereo_capture ⟨[], []⟩ (.error e) (.ok (rimg, rts))).1 = .error e ∧
    (stereo_capture ⟨[], []⟩ (.error e) (.ok (rimg, rts))).2.left_rx = [] ∧
    (stereo_capture ⟨[], []⟩ (.error e) (.ok (rimg, rts))).2.right_rx = [.ok (rimg, rts)] ∧
    (stereo_capture (stereo_capture ⟨[], []⟩ (.error e) (.ok (rimg, rts))).2
        (.ok (limg, lts)) rres2).1 =
      .ok { left := limg, right := rimg, left_timestamp := lts, right_timestamp := rts } ∧
    (stereo_capture (stereo_capture ⟨[], []⟩ (.error e) (.ok (rimg, rts))).2
        (.ok (limg, lts)) rres2).2.right_rx = [rres2] :=
  ⟨rfl, rfl, rfl, rfl, rfl⟩

/-- C10: if `StereoStreamBuilder::build` is called with both camera paths set
but no image format, then in every run where both camera opens and both
starts succeed, `build` panics on unwrapping the absent image format
(modelled by `none`) instead of returning an error. -/
theorem claim_C10 (b : StereoStreamBuilder) (lp rp : String)
    (hl : b.left_path = some lp) (hr : b.right_path = some rp)
    (hf : b.img_format = none) :
    b.build (.ok ()) (.ok ()) (.ok ()) (.ok ()) = none := by
  unfold StereoStreamBuilder.build
  rw [if_neg (by simp [hl, hr])]
  simp [hf]

/-- Witness for C10 at a concrete builder with both paths and no format. -/
theorem claim_C10_witness :
    sampleBuilder.build (.ok ()) (.ok ()) (.ok ()) (.ok ()) = none :=
  claim_C10 sampleBuilder "/dev/video2" "/dev/video4" rfl rfl rfl

/-- C8 counterexample: the FourCC code `[0xFF, 0xFF, 0xFF, 0xFF]` differs from
`b"MJPG"` yet `StereoStreamBuilder::format` does not reject it with an
unsupported-format error — it panics (modelled by `none`) inside
`String::from_utf8(...).unwrap()` while building the error message, because
the bytes are not valid UTF-8. -/
theorem claim_C8_counterexample :
    ([0xFF, 0xFF, 0xFF, 0xFF] : List ℕ) ≠ [0x4D, 0x4A, 0x50, 0x47] ∧
    CamStreamBuilder.stereo.format [0xFF, 0xFF, 0xFF, 0xFF] = none :=
  ⟨by decide, rfl⟩

/-- C8 (amended): for every FourCC code other than `b"MJPG"` whose bytes are
valid UTF-8, the stereo stream builder's `format` call rejects the code with
the unsupported-format error (before any camera device is opened — cameras
are only opened later, in `build`). -/
theorem claim_C8 (b : StereoStreamBuilder) (code : List ℕ)
    (hval : utf8Valid code = true) (hne : code ≠ [0x4D, 0x4A, 0x50, 0x47]) :
    b.format code = some (.error (.ImageFormatError code)) := by
  unfold StereoStreamBuilder.format format_from_fourcc
  rw [if_neg hne]
  simp [hval]

/-- Witness for C8 at the concrete non-MJPG ASCII code `b"ABCD"`. -/
theorem claim_C8_witness :
    CamStreamBuilder.stereo.format [0x41, 0x42, 0x43, 0x44] =
      some (.error (.ImageFormatError [0x41, 0x42, 0x43, 0x44])) :=
  claim_C8 CamStreamBuilder.stereo [0x41, 0x42, 0x43, 0x44] (by decide) (by decide)

end CvCamstream
